import Mathlib

/-!
Shallow embedding of the chat-session logic of the `magangChatbot_AI`
front-end.  The repository contains three near-duplicate versions of a
single React chat page:

* `src/app/Posts/page.tsx` ("page variant", with query-expansion metadata),
* the first document of `src/unnamed/part_000` ("fixed-sources variant"),
* the second document of `src/unnamed/part_000` ("enhanced variant", the
  only one whose form markup is complete; it adds `top_k: 5` to the
  request body and an auto-submitting `handleQuickQuestion`).

The stateful React hooks are modelled as pure transition functions on an
explicit `SessionState`; the asynchronous `fetch` is modelled by passing
the outcome of the request (`FetchOutcome`) as an argument, and message
timestamps (`new Date()`) as `Nat` arguments.  JSON values that may be
`undefined`/`null` at runtime are modelled with `Option`, and the JS `||`
fallback on strings (falsy on the empty string) is modelled by `jsOrStr`.
-/

namespace Chatbot

/-- Roles of transcript entries (`ChatMessage.role` in the source). -/
inductive Role where
  | user
  | assistant
deriving DecidableEq, Repr

/-- The selected model (`useState<"groq" | "gemini">`). -/
inductive Model where
  | groq
  | gemini
deriving DecidableEq, Repr

/-- The wire key of a model, as sent in the request body and compared in
the rendering code (`"groq"` / `"gemini"`). -/
def Model.key : Model → String
  | .groq => "groq"
  | .gemini => "gemini"

/-- A cited source (`interface Source`).  The three variants declare
slightly different field sets (`file?` only in the enhanced variant,
`source_type`/`category` optional in the page variant); this structure is
their union, with fields that are optional in some variant made
`Option`.  `similarity: number` is a JSON decimal score, modelled as a
rational; no claim computes with it. -/
structure Source where
  title : String
  abstract : String
  link : String
  file : Option String
  release_date : String
  source_type : Option String
  category : Option String
  similarity : Rat
deriving DecidableEq, Repr

/-- The `metadata` block of an API response (and of a page-variant
`ChatMessage`): `{model?, original_query?, expanded_query?,
search_keyword?, time_references?, found_documents?}`. -/
structure RespMetadata where
  model : Option String
  original_query : Option String
  expanded_query : Option String
  search_keyword : Option String
  time_references : Option (List String)
  found_documents : Option Nat
deriving DecidableEq, Repr

/-- A transcript entry (`interface ChatMessage`).  `content` is typed
`string` in TS but the success path assigns `data.answer`, which can be
`undefined` at runtime, hence `Option String` here.  `timestamp: Date` is
an opaque creation time, modelled as `Nat`.  `metadata` exists only in
the page variant; the other variants always leave it absent. -/
structure ChatMessage where
  role : Role
  content : Option String
  sources : Option (List Source)
  timestamp : Nat
  model : Option String
  metadata : Option RespMetadata
deriving DecidableEq, Repr

/-- The session state: the five `useState` hooks of `ChatInterface`. -/
structure SessionState where
  question : String
  messages : List ChatMessage
  loading : Bool
  error : Option String
  selectedModel : Model
deriving DecidableEq, Repr

/-- A JSON value as occurring in the request body (strings, numbers and
booleans suffice for `JSON.stringify` of the bodies in this code). -/
inductive JsonVal where
  | str (s : String)
  | num (n : Nat)
  | bool (b : Bool)
deriving DecidableEq, Repr

/-- One `fetch` call: URL, method, `Content-Type` header, and the JSON
body as the ordered field list that `JSON.stringify` serialises. -/
structure Request where
  url : String
  method : String
  contentType : String
  body : List (String × JsonVal)
deriving DecidableEq, Repr

/-- The parsed JSON body of a response, as the code reads it
(`data.answer`, `data.sources`, `data.metadata`); each field may be
absent at runtime. -/
structure ApiResponse where
  answer : Option String
  sources : Option (List Source)
  metadata : Option RespMetadata
deriving DecidableEq, Repr

/-- Outcome of `res.json()`: rejection (malformed body; the rejection
value is a `SyntaxError`, an `Error` carrying a message) or parsed data. -/
inductive BodyOutcome where
  | malformed (msg : String)
  | parsed (data : ApiResponse)
deriving DecidableEq, Repr

/-- Outcome of the `fetch` call: `reject` when the promise rejects
(`isError` records whether the rejection value is an `instanceof Error`,
`msg` its message), or `resp` with the HTTP status, `statusText`, and
the body outcome. -/
inductive FetchOutcome where
  | reject (isError : Bool) (msg : String)
  | resp (status : Nat) (statusText : String) (body : BodyOutcome)
deriving DecidableEq, Repr

/-- JS `String.prototype.trim()`: strips leading and trailing
whitespace.  Defined structurally over the character list so that it
evaluates inside the kernel; the guard in `handleSubmit` only compares
the result against the empty string. -/
def jsTrim (s : String) : String :=
  String.mk (((s.data.dropWhile Char.isWhitespace).reverse.dropWhile
    Char.isWhitespace).reverse)

/-- `res.ok`: status in the inclusive range 200–299. -/
def resOk (status : Nat) : Bool :=
  200 ≤ status && status ≤ 299

/-- JS `a || d` for a possibly-absent string `a`: falls back to `d` when
`a` is `undefined`/`null` **or the empty string** (empty strings are
falsy in JS). -/
def jsOrStr : Option String → String → String
  | some s, d => if s = "" then d else s
  | none, d => d

/-- The user message appended synchronously by `handleSubmit`
(`{role: "user", content: question, timestamp: new Date()}`); `content`
is the raw, untrimmed input. -/
def userMessage (q : String) (ts : Nat) : ChatMessage :=
  { role := .user, content := some q, sources := none, timestamp := ts,
    model := none, metadata := none }

/-- The assistant message built on the success path of the page variant:
`{role, content: data.answer, sources: data.sources || [],
timestamp, model: data.metadata?.model || selectedModel,
metadata: data.metadata}`.  An array is always truthy in JS (including
`[]`), so `data.sources || []` is exactly `getD []` on the option. -/
def assistantMessage (data : ApiResponse) (sel : Model) (ts : Nat) : ChatMessage :=
  { role := .assistant
    content := data.answer
    sources := some (data.sources.getD [])
    timestamp := ts
    model := some (jsOrStr (data.metadata.bind RespMetadata.model) sel.key)
    metadata := data.metadata }

/-- The synthetic assistant message appended on the failure path of the
page and fixed-sources variants:
`{role, content: "Maaf, terjadi kesalahan: " + errorMessage, timestamp}`;
`sources`, `model` and `metadata` are absent. -/
def errorChatMessage (em : String) (ts : Nat) : ChatMessage :=
  { role := .assistant, content := some ("Maaf, terjadi kesalahan: " ++ em),
    sources := none, timestamp := ts, model := none, metadata := none }

/-- The `catch` branch shared by all variants up to the message text:
`setError(errorMessage)` then append the synthetic assistant message. -/
def catchBranch (errMsg : ChatMessage) (em : String) (s1 : SessionState) : SessionState :=
  { s1 with error := some em, messages := s1.messages ++ [errMsg] }

/-- The message computed from the caught value:
`err instanceof Error ? err.message : "Terjadi kesalahan"`. -/
def caughtMessage (isError : Bool) (msg : String) : String :=
  if isError then msg else "Terjadi kesalahan"

/-- Resolution of the outstanding request in the page variant: the
`try`/`catch`/`finally` tail of `handleSubmit` after the fetch settles.
A non-ok status throws `Error("API Error: " + status)`; a `res.json()`
rejection is a `SyntaxError` (an `Error`); both land in `catch`.  The
`finally` clause sets `loading` to `false` on every path. -/
def resolveOutcome (sel : Model) (outcome : FetchOutcome) (ts2 : Nat)
    (s1 : SessionState) : SessionState :=
  let s2 :=
    match outcome with
    | .reject isErr msg =>
        catchBranch (errorChatMessage (caughtMessage isErr msg) ts2)
          (caughtMessage isErr msg) s1
    | .resp status _ body =>
        if resOk status then
          match body with
          | .malformed msg => catchBranch (errorChatMessage msg ts2) msg s1
          | .parsed data =>
              { s1 with messages := s1.messages ++ [assistantMessage data sel ts2] }
        else
          catchBranch (errorChatMessage ("API Error: " ++ toString status) ts2)
            ("API Error: " ++ toString status) s1
  { s2 with loading := false }

/-- The error message the `catch` branch will receive for a given fetch
outcome, `none` on the success path.  Mirrors the control flow of
`handleSubmit`: the ok-check precedes `res.json()`. -/
def caughtErrMsg : FetchOutcome → Option String
  | .reject isErr msg => some (caughtMessage isErr msg)
  | .resp status _ body =>
      if resOk status then
        match body with
        | .malformed msg => some msg
        | .parsed _ => none
      else
        some ("API Error: " ++ toString status)

/-- The request issued by the page and fixed-sources variants:
`POST {API_URL}/api/chat` with JSON body
`{question, use_rag: true, model: selectedModel}`. -/
def chatRequest (apiUrl q : String) (sel : Model) : Request :=
  { url := apiUrl ++ "/api/chat", method := "POST",
    contentType := "application/json",
    body := [("question", .str q), ("use_rag", .bool true),
             ("model", .str sel.key)] }

/-- The state after the synchronous prefix of `handleSubmit`: append the
user message, clear the input, set `loading := true`, `error := null`. -/
def startedState (ts1 : Nat) (s : SessionState) : SessionState :=
  { s with messages := s.messages ++ [userMessage s.question ts1],
           question := "", loading := true, error := none }

/-- The synchronous phase of `handleSubmit` (page variant): the trim
guard, the four state updates, and the single request it issues.
Returns the request alongside the new state; `none` when the guard
`if (!question.trim()) return` fires. -/
def submitStart (apiUrl : String) (ts1 : Nat) (s : SessionState) :
    SessionState × Option Request :=
  if jsTrim s.question = "" then (s, none)
  else (startedState ts1 s, some (chatRequest apiUrl s.question s.selectedModel))

/-- `handleSubmit` of the page variant, as a whole: guard, synchronous
updates, one request, and resolution of its outcome. -/
def handleSubmit (apiUrl : String) (outcome : FetchOutcome) (ts1 ts2 : Nat)
    (s : SessionState) : SessionState × Option Request :=
  if jsTrim s.question = "" then (s, none)
  else (resolveOutcome s.selectedModel outcome ts2 (startedState ts1 s),
        some (chatRequest apiUrl s.question s.selectedModel))

/-- The submit action as reachable through the UI: the form's text input
carries `disabled={loading}` and the submit button
`disabled={loading || !question.trim()}`, so the submit event cannot
fire while a request is in flight. -/
def submit (apiUrl : String) (outcome : FetchOutcome) (ts1 ts2 : Nat)
    (s : SessionState) : SessionState × Option Request :=
  if s.loading then (s, none) else handleSubmit apiUrl outcome ts1 ts2 s

/-- The request issued by the enhanced variant: same endpoint, body
additionally carries `top_k: 5`. -/
def chatRequestV2 (apiUrl q : String) (sel : Model) : Request :=
  { url := apiUrl ++ "/api/chat", method := "POST",
    contentType := "application/json",
    body := [("question", .str q), ("use_rag", .bool true),
             ("model", .str sel.key), ("top_k", .num 5)] }

/-- The enhanced variant's synthetic error message — different wrapper
text (copied byte-for-byte from the source, mojibake included); still no
`sources` and no `model`. -/
def errorChatMessageV2 (em : String) (ts : Nat) : ChatMessage :=
  { role := .assistant
    content := some ("âš ï¸ Maaf, terjadi kesalahan: " ++ em ++
      "\n\nSilakan coba lagi atau hubungi administrator.")
    sources := none, timestamp := ts, model := none, metadata := none }

/-- The enhanced variant's success message: identical construction, but
its `ChatMessage` interface has no `metadata` field (always absent). -/
def assistantMessageV2 (data : ApiResponse) (sel : Model) (ts : Nat) : ChatMessage :=
  { role := .assistant
    content := data.answer
    sources := some (data.sources.getD [])
    timestamp := ts
    model := some (jsOrStr (data.metadata.bind RespMetadata.model) sel.key)
    metadata := none }

/-- Resolution in the enhanced variant: the non-ok throw is
`Error("API Error: " + status + " - " + statusText)`. -/
def resolveOutcomeV2 (sel : Model) (outcome : FetchOutcome) (ts2 : Nat)
    (s1 : SessionState) : SessionState :=
  let s2 :=
    match outcome with
    | .reject isErr msg =>
        catchBranch (errorChatMessageV2 (caughtMessage isErr msg) ts2)
          (caughtMessage isErr msg) s1
    | .resp status statusText body =>
        if resOk status then
          match body with
          | .malformed msg => catchBranch (errorChatMessageV2 msg ts2) msg s1
          | .parsed data =>
              { s1 with messages := s1.messages ++ [assistantMessageV2 data sel ts2] }
        else
          catchBranch
            (errorChatMessageV2 ("API Error: " ++ toString status ++ " - " ++ statusText) ts2)
            ("API Error: " ++ toString status ++ " - " ++ statusText) s1
  { s2 with loading := false }

/-- `handleSubmit` of the enhanced variant. -/
def handleSubmitV2 (apiUrl : String) (outcome : FetchOutcome) (ts1 ts2 : Nat)
    (s : SessionState) : SessionState × Option Request :=
  if jsTrim s.question = "" then (s, none)
  else (resolveOutcomeV2 s.selectedModel outcome ts2 (startedState ts1 s),
        some (chatRequestV2 apiUrl s.question s.selectedModel))

/-- The enhanced variant's submit as reachable through the UI (same
`disabled={loading}` gating on the form controls). -/
def submitV2 (apiUrl : String) (outcome : FetchOutcome) (ts1 ts2 : Nat)
    (s : SessionState) : SessionState × Option Request :=
  if s.loading then (s, none) else handleSubmitV2 apiUrl outcome ts1 ts2 s

/-- `handleQuickQuestion` of the enhanced variant: the quick-question
button is `disabled={loading}`; the handler does `setQuestion(q)` and,
100 ms later, `form.requestSubmit()`.  `requestSubmit` runs interactive
validation first: the text input is `required`, so an empty value blocks
submission; otherwise `handleSubmit` runs on the updated state.  The
100 ms delay is modelled as immediate sequencing (no other event can
interleave in this single-user model). -/
def handleQuickQuestion (apiUrl : String) (outcome : FetchOutcome) (ts1 ts2 : Nat)
    (q : String) (s : SessionState) : SessionState × Option Request :=
  if s.loading then (s, none)
  else
    let s1 := { s with question := q }
    if q = "" then (s1, none)
    else handleSubmitV2 apiUrl outcome ts1 ts2 s1

/-- The preset quick questions of the enhanced variant (byte-for-byte,
mojibake included). -/
def quickQuestionsV2 : List String :=
  ["ğŸ“Š Inflasi terendah di Jawa Timur bulan September 2025",
   "ğŸ“ˆ Pertumbuhan ekonomi Sumatera Utara terbaru",
   "ğŸ’° Data kemiskinan Sumut tahun 2025",
   "ğŸ‘¨â€ğŸ’¼ Tingkat pengangguran terbuka terkini",
   "ğŸŒ¾ Produksi padi di Jawa Timur",
   "ğŸ“‰ Deflasi yang terjadi di Jawa Timur"]

/-- The preset quick questions of the page variant. -/
def quickQuestionsPage : List String :=
  ["Data inflasi 2 tahun terakhir",
   "Tingkat kemiskinan Sumut tahun ini",
   "Pertumbuhan ekonomi 3 tahun belakangan",
   "Pengangguran terbaru"]

/-- The page variant's quick-question button: `onClick={() =>
setQuestion(q)}` with `disabled={loading}` — it only sets the pending
input and does not submit. -/
def quickFillPage (q : String) (s : SessionState) : SessionState :=
  if s.loading then s else { s with question := q }

/-- Model selection: `onClick={() => setSelectedModel(m)}` with
`disabled={loading}`. -/
def selectModel (m : Model) (s : SessionState) : SessionState :=
  if s.loading then s else { s with selectedModel := m }

/-- The error banner's close button: `onClick={() => setError(null)}`. -/
def dismissError (s : SessionState) : SessionState :=
  { s with error := none }

/-- Whether the rendering shows a sources section for a message:
`msg.sources && msg.sources.length > 0`. -/
def showsSources (m : ChatMessage) : Bool :=
  match m.sources with
  | none => false
  | some l => decide (0 < l.length)

/-- Whether the rendering shows a model badge for a message:
`msg.model && ...` (an empty string is falsy). -/
def showsModelBadge (m : ChatMessage) : Bool :=
  match m.model with
  | none => false
  | some k => decide (k ≠ "")

/-! ### Concrete states and outcomes used by witnesses and counterexamples -/

/-- The hardcoded fallback API base URL of all variants. -/
def exApi : String := "https://jernihh-magangchatbot-ai.hf.space"

/-- A well-shaped success body `{answer: "X", sources: []}`. -/
def exOkResp : ApiResponse :=
  { answer := some "X", sources := some [], metadata := none }

/-- A 200 response carrying `exOkResp`. -/
def exOutcomeOk : FetchOutcome := .resp 200 "OK" (.parsed exOkResp)

/-- The initial session state: empty input and transcript, not loading,
no error, model `groq` (the `useState` defaults). -/
def exIdle : SessionState :=
  { question := "", messages := [], loading := false, error := none,
    selectedModel := .groq }

/-- Idle state whose pending input is `"Data inflasi Sumut"`. -/
def exAsk : SessionState := { exIdle with question := "Data inflasi Sumut" }

/-! ### Shared helper lemmas -/

/-- On the trim-guarded path, `resolveOutcome` with a caught error
produces exactly the catch-branch state with `loading` cleared. -/
theorem resolveOutcome_catch (sel : Model) (outcome : FetchOutcome) (ts2 : Nat)
    (s1 : SessionState) (em : String) (hf : caughtErrMsg outcome = some em) :
    resolveOutcome sel outcome ts2 s1 =
      { s1 with error := some em,
                messages := s1.messages ++ [errorChatMessage em ts2],
                loading := false } := by
  cases outcome with
  | reject isErr msg =>
      simp only [caughtErrMsg, Option.some.injEq] at hf
      subst hf
      rfl
  | resp status stx body =>
      by_cases hok : resOk status = true
      · cases body with
        | malformed msg =>
            simp only [caughtErrMsg, hok, if_true, Option.some.injEq] at hf
            subst hf
            simp [resolveOutcome, hok, catchBranch]
        | parsed data =>
            simp [caughtErrMsg, hok] at hf
      · simp only [caughtErrMsg, hok, if_false, Option.some.injEq,
          Bool.false_eq_true, if_neg] at hf
        subst hf
        simp [resolveOutcome, hok, catchBranch]

/-- On a 2xx response with parseable body, `resolveOutcome` appends the
assistant message and clears `loading`. -/
theorem resolveOutcome_success (sel : Model) (status : Nat) (stx : String)
    (data : ApiResponse) (ts2 : Nat) (s1 : SessionState)
    (hok : resOk status = true) :
    resolveOutcome sel (.resp status stx (.parsed data)) ts2 s1 =
      { s1 with messages := s1.messages ++ [assistantMessage data sel ts2],
                loading := false } := by
  simp [resolveOutcome, hok]

/-- `handleSubmit` on a failed request, in closed form. -/
theorem handleSubmit_catch (apiUrl : String) (outcome : FetchOutcome)
    (ts1 ts2 : Nat) (s : SessionState) (em : String)
    (hq : jsTrim s.question ≠ "") (hf : caughtErrMsg outcome = some em) :
    handleSubmit apiUrl outcome ts1 ts2 s =
      ({ s with question := "", loading := false, error := some em,
                messages := s.messages ++
                  [userMessage s.question ts1, errorChatMessage em ts2] },
       some (chatRequest apiUrl s.question s.selectedModel)) := by
  simp only [handleSubmit, hq, if_neg, if_false]
  rw [resolveOutcome_catch s.selectedModel outcome ts2 _ em hf]
  simp [startedState]

/-- `handleSubmit` on a successful request, in closed form. -/
theorem handleSubmit_success (apiUrl : String) (status : Nat) (stx : String)
    (data : ApiResponse) (ts1 ts2 : Nat) (s : SessionState)
    (hq : jsTrim s.question ≠ "") (hok : resOk status = true) :
    handleSubmit apiUrl (.resp status stx (.parsed data)) ts1 ts2 s =
      ({ s with question := "", loading := false, error := none,
                messages := s.messages ++
                  [userMessage s.question ts1,
                   assistantMessage data s.selectedModel ts2] },
       some (chatRequest apiUrl s.question s.selectedModel)) := by
  simp only [handleSubmit, hq, if_neg, if_false]
  rw [resolveOutcome_success s.selectedModel status stx data ts2 _ hok]
  simp [startedState]

/-! ### Claims -/

/-- Claim C1: `submit` is a no-op when the input is empty or
whitespace-only, or when a request is already in flight
(`loading = true`): the whole state — transcript, loading flag, error,
selected model — is unchanged and no request is issued (single-flight). -/
theorem submit_noop_of_empty_or_loading (apiUrl : String)
    (outcome : FetchOutcome) (ts1 ts2 : Nat) (s : SessionState)
    (h : jsTrim s.question = "" ∨ s.loading = true) :
    submit apiUrl outcome ts1 ts2 s = (s, none) := by
  rcases h with h | h
  · simp [submit, handleSubmit, h]
  · simp [submit, h]

/-- Witness for C1 at the whitespace-only input `"   "`. -/
theorem submit_noop_of_empty_or_loading_witness :
    submit exApi exOutcomeOk 1 2 { exIdle with question := "   " } =
      ({ exIdle with question := "   " }, none) :=
  submit_noop_of_empty_or_loading exApi exOutcomeOk 1 2
    { exIdle with question := "   " } (Or.inl (by decide))

/-- Claim C5: for every input that is non-empty after trimming, with no
request in flight, the synchronous phase of submit appends exactly one
user message carrying the raw (untrimmed) input, clears the pending
input, sets `loading := true` and `error := none`, and issues the single
request `{question, use_rag: true, model}` — all before any response. -/
theorem submitStart_sync_effects (apiUrl : String) (ts1 : Nat)
    (s : SessionState) (hq : jsTrim s.question ≠ "") (_hl : s.loading = false) :
    (submitStart apiUrl ts1 s).1.messages =
        s.messages ++ [userMessage s.question ts1] ∧
    (userMessage s.question ts1).content = some s.question ∧
    (userMessage s.question ts1).role = .user ∧
    (submitStart apiUrl ts1 s).1.question = "" ∧
    (submitStart apiUrl ts1 s).1.loading = true ∧
    (submitStart apiUrl ts1 s).1.error = none ∧
    (submitStart apiUrl ts1 s).2 =
        some (chatRequest apiUrl s.question s.selectedModel) ∧
    (chatRequest apiUrl s.question s.selectedModel).body =
        [("question", JsonVal.str s.question), ("use_rag", JsonVal.bool true),
         ("model", JsonVal.str s.selectedModel.key)] := by
  refine ⟨?_, rfl, rfl, ?_, ?_, ?_, ?_, rfl⟩ <;>
    simp [submitStart, hq, startedState]

/-- Witness for C5 at the raw input `" Data inflasi Sumut "` (note the
surrounding spaces are preserved in the appended user message). -/
theorem submitStart_sync_effects_witness :
    (submitStart exApi 1 { exIdle with question := " Data inflasi Sumut " }).1.messages =
        ({ exIdle with question := " Data inflasi Sumut " } : SessionState).messages ++
          [userMessage " Data inflasi Sumut " 1] ∧
    (userMessage (" Data inflasi Sumut " : String) 1).content =
        some " Data inflasi Sumut " ∧
    (userMessage (" Data inflasi Sumut " : String) 1).role = .user ∧
    (submitStart exApi 1 { exIdle with question := " Data inflasi Sumut " }).1.question = "" ∧
    (submitStart exApi 1 { exIdle with question := " Data inflasi Sumut " }).1.loading = true ∧
    (submitStart exApi 1 { exIdle with question := " Data inflasi Sumut " }).1.error = none ∧
    (submitStart exApi 1 { exIdle with question := " Data inflasi Sumut " }).2 =
        some (chatRequest exApi " Data inflasi Sumut " Model.groq) ∧
    (chatRequest exApi (" Data inflasi Sumut " : String) Model.groq).body =
        [("question", JsonVal.str " Data inflasi Sumut "),
         ("use_rag", JsonVal.bool true), ("model", JsonVal.str Model.groq.key)] :=
  submitStart_sync_effects exApi 1 { exIdle with question := " Data inflasi Sumut " }
    (by decide) rfl

/-- A success body whose `metadata.model` is present and non-empty. -/
def exRespNamedModel : ApiResponse :=
  { answer := some "X", sources := some [],
    metadata := some { model := some "llama-3.1-8b", original_query := none,
                       expanded_query := none, search_keyword := none,
                       time_references := none, found_documents := none } }

/-- A success body whose `metadata.model` is present but the empty
string (a falsy value under JS `||`). -/
def exRespEmptyModel : ApiResponse :=
  { answer := some "X", sources := some [],
    metadata := some { model := some "", original_query := none,
                       expanded_query := none, search_keyword := none,
                       time_references := none, found_documents := none } }

/-- A 200 body that is valid JSON but lacks the `answer` field. -/
def exRespNoAnswer : ApiResponse :=
  { answer := none, sources := none, metadata := none }

/-- Claim C2 (amended): on a 2xx response with parseable JSON whose
`answer` field is present, submit appends exactly one assistant message
whose content equals the answer, whose source list equals the response's
`sources` defaulting to `[]` when absent, and whose model equals
`metadata.model` falling back to the currently selected model when
absent **or the empty string** (JS `||` treats `""` as falsy); loading
returns to false. -/
theorem submit_success_message_fields (apiUrl : String) (status : Nat)
    (stx : String) (data : ApiResponse) (ts1 ts2 : Nat) (s : SessionState)
    (a : String) (hq : jsTrim s.question ≠ "") (hok : resOk status = true)
    (ha : data.answer = some a) :
    (handleSubmit apiUrl (.resp status stx (.parsed data)) ts1 ts2 s).1.messages =
        s.messages ++ [userMessage s.question ts1,
                       assistantMessage data s.selectedModel ts2] ∧
    (assistantMessage data s.selectedModel ts2).content = some a ∧
    (assistantMessage data s.selectedModel ts2).sources =
        some (data.sources.getD []) ∧
    (assistantMessage data s.selectedModel ts2).model =
        some (match data.metadata.bind RespMetadata.model with
              | none => s.selectedModel.key
              | some k => if k = "" then s.selectedModel.key else k) ∧
    (handleSubmit apiUrl (.resp status stx (.parsed data)) ts1 ts2 s).1.loading = false ∧
    (handleSubmit apiUrl (.resp status stx (.parsed data)) ts1 ts2 s).1.error = none := by
  have h := handleSubmit_success apiUrl status stx data ts1 ts2 s hq hok
  refine ⟨?_, ?_, rfl, ?_, ?_, ?_⟩
  · rw [h]
  · simp [assistantMessage, ha]
  · cases hx : data.metadata.bind RespMetadata.model <;>
      simp [assistantMessage, jsOrStr, hx]
  · rw [h]
  · rw [h]

/-- Witness for C2 on the simulated success `{answer: "X", sources: []}`
with a named `metadata.model`, submitted from `exAsk` (model `groq`). -/
theorem submit_success_message_fields_witness :
    (handleSubmit exApi (.resp 200 "OK" (.parsed exRespNamedModel)) 1 2 exAsk).1.messages =
        exAsk.messages ++ [userMessage exAsk.question 1,
                           assistantMessage exRespNamedModel exAsk.selectedModel 2] ∧
    (assistantMessage exRespNamedModel exAsk.selectedModel 2).content = some "X" ∧
    (assistantMessage exRespNamedModel exAsk.selectedModel 2).sources =
        some (exRespNamedModel.sources.getD []) ∧
    (assistantMessage exRespNamedModel exAsk.selectedModel 2).model =
        some (match exRespNamedModel.metadata.bind RespMetadata.model with
              | none => exAsk.selectedModel.key
              | some k => if k = "" then exAsk.selectedModel.key else k) ∧
    (handleSubmit exApi (.resp 200 "OK" (.parsed exRespNamedModel)) 1 2 exAsk).1.loading = false ∧
    (handleSubmit exApi (.resp 200 "OK" (.parsed exRespNamedModel)) 1 2 exAsk).1.error = none :=
  submit_success_message_fields exApi 200 "OK" exRespNamedModel 1 2 exAsk "X"
    (by decide) rfl rfl

/-- Counterexample to C2 as stated: when `metadata.model` is present but
equal to `""`, the appended assistant message's model is the selected
model `"groq"`, not `""` — the fallback also fires on the empty string,
not only when the field is absent. -/
theorem submit_success_empty_model_cex :
    exRespEmptyModel.metadata.bind RespMetadata.model = some "" ∧
    (handleSubmit exApi (.resp 200 "OK" (.parsed exRespEmptyModel)) 1 2 exAsk).1.messages.map
        ChatMessage.model = [none, some "groq"] ∧
    some ("groq" : String) ≠ some ("" : String) :=
  ⟨rfl, rfl, by decide⟩

/-- Claim C3: on a failed request (non-2xx status or network failure —
and, more generally, any outcome the `catch` block receives), submit
sets `error` to the derived message, appends exactly one synthetic
assistant message whose content contains that message, sets loading back
to false, and the user's question is still in the transcript. -/
theorem submit_failure_effects (apiUrl : String) (outcome : FetchOutcome)
    (ts1 ts2 : Nat) (s : SessionState) (em : String)
    (hq : jsTrim s.question ≠ "") (hf : caughtErrMsg outcome = some em) :
    (handleSubmit apiUrl outcome ts1 ts2 s).1.error = some em ∧
    (handleSubmit apiUrl outcome ts1 ts2 s).1.messages =
        s.messages ++ [userMessage s.question ts1, errorChatMessage em ts2] ∧
    (errorChatMessage em ts2).role = .assistant ∧
    (errorChatMessage em ts2).content =
        some ("Maaf, terjadi kesalahan: " ++ em) ∧
    (handleSubmit apiUrl outcome ts1 ts2 s).1.loading = false ∧
    userMessage s.question ts1 ∈ (handleSubmit apiUrl outcome ts1 ts2 s).1.messages := by
  have h := handleSubmit_catch apiUrl outcome ts1 ts2 s em hq hf
  refine ⟨?_, ?_, rfl, rfl, ?_, ?_⟩ <;> simp [h]

/-- Witness for C3 on a simulated HTTP 500: the derived message is
`"API Error: 500"`. -/
theorem submit_failure_effects_witness :
    (handleSubmit exApi (.resp 500 "Internal Server Error" (.parsed exOkResp)) 1 2 exAsk).1.error =
        some "API Error: 500" ∧
    (handleSubmit exApi (.resp 500 "Internal Server Error" (.parsed exOkResp)) 1 2 exAsk).1.messages =
        exAsk.messages ++ [userMessage exAsk.question 1,
                           errorChatMessage "API Error: 500" 2] ∧
    (errorChatMessage "API Error: 500" 2).role = .assistant ∧
    (errorChatMessage "API Error: 500" 2).content =
        some ("Maaf, terjadi kesalahan: " ++ "API Error: 500") ∧
    (handleSubmit exApi (.resp 500 "Internal Server Error" (.parsed exOkResp)) 1 2 exAsk).1.loading = false ∧
    userMessage exAsk.question 1 ∈
      (handleSubmit exApi (.resp 500 "Internal Server Error" (.parsed exOkResp)) 1 2 exAsk).1.messages :=
  submit_failure_effects exApi (.resp 500 "Internal Server Error" (.parsed exOkResp))
    1 2 exAsk "API Error: 500" (by decide) (by decide)

/-- Claim C4 (amended): a 2xx response whose body fails to parse as JSON
is treated identically to a transport error — `error` is set and a
synthetic error message is appended; but a 2xx response with valid JSON
lacking `answer` is NOT: no error is set and an ordinary assistant
message with absent content is appended. -/
theorem missing_answer_vs_malformed (apiUrl : String) (status : Nat)
    (stx msg : String) (data : ApiResponse) (ts1 ts2 : Nat) (s : SessionState)
    (hq : jsTrim s.question ≠ "") (hok : resOk status = true)
    (hna : data.answer = none) :
    ((handleSubmit apiUrl (.resp status stx (.malformed msg)) ts1 ts2 s).1.error = some msg ∧
     (handleSubmit apiUrl (.resp status stx (.malformed msg)) ts1 ts2 s).1.messages =
        s.messages ++ [userMessage s.question ts1, errorChatMessage msg ts2]) ∧
    ((handleSubmit apiUrl (.resp status stx (.parsed data)) ts1 ts2 s).1.error = none ∧
     (handleSubmit apiUrl (.resp status stx (.parsed data)) ts1 ts2 s).1.messages =
        s.messages ++ [userMessage s.question ts1,
                       assistantMessage data s.selectedModel ts2] ∧
     (assistantMessage data s.selectedModel ts2).content = none) := by
  have hm : caughtErrMsg (.resp status stx (.malformed msg)) = some msg := by
    simp [caughtErrMsg, hok]
  have h1 := handleSubmit_catch apiUrl (.resp status stx (.malformed msg)) ts1 ts2 s msg hq hm
  have h2 := handleSubmit_success apiUrl status stx data ts1 ts2 s hq hok
  refine ⟨⟨?_, ?_⟩, ?_, ?_, ?_⟩ <;> simp [h1, h2, assistantMessage, hna]

/-- Witness for C4 on a 200 response: a malformed body versus the valid
body `{}` (no `answer`). -/
theorem missing_answer_vs_malformed_witness :
    ((handleSubmit exApi (.resp 200 "OK" (.malformed "Unexpected end of JSON input")) 1 2 exAsk).1.error =
        some "Unexpected end of JSON input" ∧
     (handleSubmit exApi (.resp 200 "OK" (.malformed "Unexpected end of JSON input")) 1 2 exAsk).1.messages =
        exAsk.messages ++ [userMessage exAsk.question 1,
                           errorChatMessage "Unexpected end of JSON input" 2]) ∧
    ((handleSubmit exApi (.resp 200 "OK" (.parsed exRespNoAnswer)) 1 2 exAsk).1.error = none ∧
     (handleSubmit exApi (.resp 200 "OK" (.parsed exRespNoAnswer)) 1 2 exAsk).1.messages =
        exAsk.messages ++ [userMessage exAsk.question 1,
                           assistantMessage exRespNoAnswer exAsk.selectedModel 2] ∧
     (assistantMessage exRespNoAnswer exAsk.selectedModel 2).content = none) :=
  missing_answer_vs_malformed exApi 200 "OK" "Unexpected end of JSON input"
    exRespNoAnswer 1 2 exAsk (by decide) rfl rfl

/-- Counterexample to C4 as stated: on a 200 response with the valid
JSON body `{}` (no `answer`), `error` stays `none` and the transcript
gains an ordinary assistant message — content absent, sources defaulted
to `[]`, model badge `"groq"` — not an error reply. -/
theorem missing_answer_silent_cex :
    (handleSubmit exApi (.resp 200 "OK" (.parsed exRespNoAnswer)) 1 2 exAsk).1.error = none ∧
    (handleSubmit exApi (.resp 200 "OK" (.parsed exRespNoAnswer)) 1 2 exAsk).1.messages.map
        ChatMessage.content = [some "Data inflasi Sumut", none] ∧
    (handleSubmit exApi (.resp 200 "OK" (.parsed exRespNoAnswer)) 1 2 exAsk).1.messages.map
        ChatMessage.sources = [none, some []] ∧
    (handleSubmit exApi (.resp 200 "OK" (.parsed exRespNoAnswer)) 1 2 exAsk).1.messages.map
        ChatMessage.model = [none, some "groq"] :=
  ⟨rfl, rfl, rfl, rfl⟩

/-- Claim C8: `dismissError` clears the error and changes nothing else;
it is idempotent, and on a state whose error is already `none` it is the
identity. -/
theorem dismissError_frame (s : SessionState) :
    (dismissError s).error = none ∧
    (dismissError s).messages = s.messages ∧
    (dismissError s).question = s.question ∧
    (dismissError s).loading = s.loading ∧
    (dismissError s).selectedModel = s.selectedModel ∧
    dismissError (dismissError s) = dismissError s ∧
    dismissError { s with error := none } = { s with error := none } :=
  ⟨rfl, rfl, rfl, rfl, rfl, rfl, rfl⟩

/-- Claim C6 (amended): submitting `"Data inflasi Sumut"` with model
`groq` issues exactly one POST to `{API_BASE}/api/chat`; in the page and
fixed-sources variants the JSON body is exactly
`{question, use_rag: true, model: "groq"}`, while the enhanced variant's
body additionally carries `top_k: 5` (exactly those four fields). -/
theorem chat_request_body_exact :
    (handleSubmit exApi exOutcomeOk 1 2 exAsk).2 =
      some { url := "https://jernihh-magangchatbot-ai.hf.space/api/chat",
             method := "POST", contentType := "application/json",
             body := [("question", JsonVal.str "Data inflasi Sumut"),
                      ("use_rag", JsonVal.bool true),
                      ("model", JsonVal.str "groq")] } ∧
    (handleSubmitV2 exApi exOutcomeOk 1 2 exAsk).2 =
      some { url := "https://jernihh-magangchatbot-ai.hf.space/api/chat",
             method := "POST", contentType := "application/json",
             body := [("question", JsonVal.str "Data inflasi Sumut"),
                      ("use_rag", JsonVal.bool true),
                      ("model", JsonVal.str "groq"),
                      ("top_k", JsonVal.num 5)] } :=
  ⟨rfl, rfl⟩

/-- Counterexample to C6 as stated: the enhanced variant's request body
is not the three-field object — it also carries `top_k: 5`. -/
theorem chat_request_body_topk_cex :
    (handleSubmitV2 exApi exOutcomeOk 1 2 exAsk).2 ≠
      some { url := "https://jernihh-magangchatbot-ai.hf.space/api/chat",
             method := "POST", contentType := "application/json",
             body := [("question", JsonVal.str "Data inflasi Sumut"),
                      ("use_rag", JsonVal.bool true),
                      ("model", JsonVal.str "groq")] } := by
  decide

/-- Claim C7 (amended): in the enhanced variant, for every preset quick
question, `handleQuickQuestion` sets the pending input to it and
immediately submits, and the resulting state-and-request pair is
identical to manually setting the input to that text and calling
submit. -/
theorem quickQuestion_equiv_manual_submit (apiUrl : String)
    (outcome : FetchOutcome) (ts1 ts2 : Nat) (q : String) (s : SessionState)
    (hq : q ∈ quickQuestionsV2) (hl : s.loading = false) :
    handleQuickQuestion apiUrl outcome ts1 ts2 q s =
      submitV2 apiUrl outcome ts1 ts2 { s with question := q } := by
  have hne : q ≠ "" := by fin_cases hq <;> decide
  simp [handleQuickQuestion, submitV2, hl, hne]

/-- Witness for C7 at the preset `quickQuestionsV2` entry about rice
production, from the initial state. -/
theorem quickQuestion_equiv_manual_submit_witness :
    handleQuickQuestion exApi exOutcomeOk 1 2 "ğŸŒ¾ Produksi padi di Jawa Timur" exIdle =
      submitV2 exApi exOutcomeOk 1 2
        { exIdle with question := "ğŸŒ¾ Produksi padi di Jawa Timur" } :=
  quickQuestion_equiv_manual_submit exApi exOutcomeOk 1 2
    "ğŸŒ¾ Produksi padi di Jawa Timur" exIdle (by decide) rfl

/-- Counterexample to C7 as stated: in the page variant the
quick-question button only sets the pending input and never triggers
submit, so its result differs from a manual submit of the same preset
(the manual path clears the input and extends the transcript by two
messages). -/
theorem quickFill_page_no_submit_cex :
    "Data inflasi 2 tahun terakhir" ∈ quickQuestionsPage ∧
    (quickFillPage "Data inflasi 2 tahun terakhir" exIdle).question =
        "Data inflasi 2 tahun terakhir" ∧
    (quickFillPage "Data inflasi 2 tahun terakhir" exIdle).messages.length = 0 ∧
    (submit exApi exOutcomeOk 1 2
        { exIdle with question := "Data inflasi 2 tahun terakhir" }).1.question = "" ∧
    (submit exApi exOutcomeOk 1 2
        { exIdle with question := "Data inflasi 2 tahun terakhir" }).1.messages.length = 2 ∧
    quickFillPage "Data inflasi 2 tahun terakhir" exIdle ≠
      (submit exApi exOutcomeOk 1 2
        { exIdle with question := "Data inflasi 2 tahun terakhir" }).1 := by
  refine ⟨by decide, rfl, rfl, rfl, rfl, by decide⟩

/-- The page-variant `handleSubmit` only ever appends to the transcript. -/
theorem handleSubmit_messages_extend (apiUrl : String) (outcome : FetchOutcome)
    (ts1 ts2 : Nat) (s : SessionState) :
    ∃ tl, (handleSubmit apiUrl outcome ts1 ts2 s).1.messages = s.messages ++ tl := by
  by_cases hq : jsTrim s.question = ""
  · exact ⟨[], by simp [handleSubmit, hq]⟩
  · rcases hf : caughtErrMsg outcome with _ | em
    · rcases outcome with ⟨isErr, msg⟩ | ⟨status, stx, body⟩
      · simp [caughtErrMsg] at hf
      · rcases body with msg | data
        · by_cases hok : resOk status = true <;> simp [caughtErrMsg, hok] at hf
        · by_cases hok : resOk status = true
          · exact ⟨[userMessage s.question ts1, assistantMessage data s.selectedModel ts2],
              by rw [handleSubmit_success apiUrl status stx data ts1 ts2 s hq hok]⟩
          · simp [caughtErrMsg, hok] at hf
    · exact ⟨[userMessage s.question ts1, errorChatMessage em ts2],
        by rw [handleSubmit_catch apiUrl outcome ts1 ts2 s em hq hf]⟩

/-- The enhanced-variant `handleSubmit` only ever appends to the
transcript. -/
theorem handleSubmitV2_messages_extend (apiUrl : String) (outcome : FetchOutcome)
    (ts1 ts2 : Nat) (s : SessionState) :
    ∃ tl, (handleSubmitV2 apiUrl outcome ts1 ts2 s).1.messages = s.messages ++ tl := by
  by_cases hq : jsTrim s.question = ""
  · exact ⟨[], by simp [handleSubmitV2, hq]⟩
  · rcases outcome with ⟨isErr, msg⟩ | ⟨status, stx, body⟩
    · refine ⟨[userMessage s.question ts1,
               errorChatMessageV2 (caughtMessage isErr msg) ts2], ?_⟩
      simp [handleSubmitV2, hq, resolveOutcomeV2, catchBranch, startedState]
    · by_cases hok : resOk status = true
      · rcases body with msg | data
        · refine ⟨[userMessage s.question ts1, errorChatMessageV2 msg ts2], ?_⟩
          simp [handleSubmitV2, hq, resolveOutcomeV2, hok, catchBranch, startedState]
        · refine ⟨[userMessage s.question ts1,
                   assistantMessageV2 data s.selectedModel ts2], ?_⟩
          simp [handleSubmitV2, hq, resolveOutcomeV2, hok, startedState]
      · refine ⟨[userMessage s.question ts1,
                 errorChatMessageV2 ("API Error: " ++ toString status ++ " - " ++ stx) ts2], ?_⟩
        simp [handleSubmitV2, hq, resolveOutcomeV2, hok, catchBranch, startedState]

/-- Claim C9: the transcript is append-only — every operation (submit in
either variant and its success/failure resolution, the quick-question
actions, model selection, error dismissal) either leaves the message
list unchanged or appends new messages at the end; messages already in
the list are never modified, reordered or removed. -/
theorem transcript_append_only (apiUrl : String) (outcome : FetchOutcome)
    (ts1 ts2 : Nat) (m : Model) (t q : String) (s : SessionState) :
    (∃ tl, (submit apiUrl outcome ts1 ts2 s).1.messages = s.messages ++ tl) ∧
    (∃ tl, (submitV2 apiUrl outcome ts1 ts2 s).1.messages = s.messages ++ tl) ∧
    (∃ tl, (handleQuickQuestion apiUrl outcome ts1 ts2 q s).1.messages =
        s.messages ++ tl) ∧
    (selectModel m s).messages = s.messages ∧
    (quickFillPage t s).messages = s.messages ∧
    (dismissError s).messages = s.messages := by
  refine ⟨?_, ?_, ?_, ?_, ?_, rfl⟩
  · by_cases hl : s.loading
    · exact ⟨[], by simp [submit, hl]⟩
    · simpa [submit, hl] using handleSubmit_messages_extend apiUrl outcome ts1 ts2 s
  · by_cases hl : s.loading
    · exact ⟨[], by simp [submitV2, hl]⟩
    · simpa [submitV2, hl] using handleSubmitV2_messages_extend apiUrl outcome ts1 ts2 s
  · by_cases hl : s.loading
    · exact ⟨[], by simp [handleQuickQuestion, hl]⟩
    · by_cases hq0 : q = ""
      · exact ⟨[], by simp [handleQuickQuestion, hl, hq0]⟩
      · simpa [handleQuickQuestion, hl, hq0] using
          handleSubmitV2_messages_extend apiUrl outcome ts1 ts2 { s with question := q }
  · by_cases hl : s.loading <;> simp [selectModel, hl]
  · by_cases hl : s.loading <;> simp [quickFillPage, hl]

/-- Claim C10: the synthetic assistant message appended on a failed
request carries no source list and no model identifier (both absent, in
both message shapes), so the rendering shows neither a sources section
nor a model badge for error replies. -/
theorem error_reply_plain (apiUrl : String) (outcome : FetchOutcome)
    (ts1 ts2 : Nat) (s : SessionState) (em : String)
    (hq : jsTrim s.question ≠ "") (hf : caughtErrMsg outcome = some em) :
    (handleSubmit apiUrl outcome ts1 ts2 s).1.messages.getLast? =
        some (errorChatMessage em ts2) ∧
    (errorChatMessage em ts2).sources = none ∧
    (errorChatMessage em ts2).model = none ∧
    showsSources (errorChatMessage em ts2) = false ∧
    showsModelBadge (errorChatMessage em ts2) = false ∧
    (errorChatMessageV2 em ts2).sources = none ∧
    (errorChatMessageV2 em ts2).model = none ∧
    showsSources (errorChatMessageV2 em ts2) = false ∧
    showsModelBadge (errorChatMessageV2 em ts2) = false := by
  refine ⟨?_, rfl, rfl, rfl, rfl, rfl, rfl, rfl, rfl⟩
  rw [handleSubmit_catch apiUrl outcome ts1 ts2 s em hq hf]
  simp

/-- Witness for C10 on a network failure (`fetch` rejecting with
`TypeError("Failed to fetch")`). -/
theorem error_reply_plain_witness :
    (handleSubmit exApi (.reject true "Failed to fetch") 1 2 exAsk).1.messages.getLast? =
        some (errorChatMessage "Failed to fetch" 2) ∧
    (errorChatMessage "Failed to fetch" 2).sources = none ∧
    (errorChatMessage "Failed to fetch" 2).model = none ∧
    showsSources (errorChatMessage "Failed to fetch" 2) = false ∧
    showsModelBadge (errorChatMessage "Failed to fetch" 2) = false ∧
    (errorChatMessageV2 "Failed to fetch" 2).sources = none ∧
    (errorChatMessageV2 "Failed to fetch" 2).model = none ∧
    showsSources (errorChatMessageV2 "Failed to fetch" 2) = false ∧
    showsModelBadge (errorChatMessageV2 "Failed to fetch" 2) = false :=
  error_reply_plain exApi (.reject true "Failed to fetch") 1 2 exAsk
    "Failed to fetch" (by decide) rfl

end Chatbot
